import Mathlib

/-!
# Verification of the NEAR Intents Simulator quote engine and swap lifecycle

Shallow embedding of `OneClickSimulator` (quote validation, quote calculation,
the in-memory swap registry, and the asynchronous execution orchestrator) from
the TypeScript source, together with proofs of the specified properties.

Modelling conventions:
* JavaScript numbers are modelled as exact rationals (`ℚ`).  `NaN` — which in
  the source arises from `parseFloat` on a non-numeric string — is modelled by
  `Option ℚ` with `none` denoting `NaN`.  (The spec marks binary floating point
  as a simulator-only simplification, so exact rational arithmetic is the
  intended semantics of the numeric policy.)
* `Number.prototype.toFixed d` is modelled by `toFixedQ d`: rounding to `d`
  decimal places, ties toward positive infinity, matching the ECMAScript
  "pick the larger n" rule on exact values.  The formatted decimal strings of
  the source are represented by the rationals they denote.
* `Date`s are modelled as natural-number timestamps in milliseconds, supplied
  as explicit parameters (`now`).
* `crypto.randomUUID` and `Math.random` (inside `generateMockTxHash`) are
  modelled as explicit parameters (`uuid`, `randHex`).
* The two injected adapters are modelled as function records returning
  `Except String _` (`Except.error` = a rejected promise).
* Asynchronous orchestration (`setTimeout(() => simulateExecution(id))`) is
  modelled by a small transition system: `requestQuote` enqueues the id on a
  `scheduled` list unless the request is `dry`; `startExecution` performs the
  write of `PROCESSING` (the code before the first `await` of the task) and
  moves the id to `running`; `finishExecution` performs the rest of
  `simulateExecution`.
-/

namespace NearIntents

/-! ## Data model (src/types.ts) -/

inductive SwapType where
  | EXACT_INPUT
  | EXACT_OUTPUT
  | ANY_INPUT
deriving DecidableEq, Repr

inductive SwapStatus where
  | PENDING_DEPOSIT
  | PROCESSING
  | SUCCESS
  | INCOMPLETE_DEPOSIT
  | REFUNDED
  | FAILED
deriving DecidableEq, Repr

/-- `QuoteRequest` from src/types.ts.  The optional TS fields `dry?: boolean`
and `slippageTolerance?: number` are modelled as `Bool` (absent ≡ `false`,
which is how the code consumes it) and `Option ℚ`.  The optional `deadline`
string is never read by the simulator and is modelled as `Option String`. -/
structure QuoteRequest where
  dry : Bool := false
  swapType : SwapType
  slippageTolerance : Option ℚ := none
  originAsset : String
  destinationAsset : String
  amount : String
  refundTo : String
  recipient : String
  deadline : Option String := none
deriving DecidableEq, Repr

/-- One entry of `quote.route.steps`.  The TS field names `from` and `to` are
Lean keywords, hence `stepFrom` / `stepTo`. -/
structure RouteStep where
  stepFrom : String
  stepTo : String
  protocol : String
deriving DecidableEq, Repr

/-- `Quote` from src/types.ts.  `amountOut` and `fee` hold the rational value
denoted by the `toFixed` decimal string of the source (`none` for the string
"NaN"); `amountIn` is stored verbatim as in the source.  `deadline` is the
millisecond timestamp whose ISO rendering the source stores.  The
display-only field `amountOutFormatted` (a 2-decimal string with a symbol) is
not modelled. -/
structure Quote where
  depositAddress : String
  amountIn : String
  amountOut : Option ℚ
  deadline : ℕ
  timeEstimate : ℕ
  fee : Option ℚ
  route : List RouteStep
deriving DecidableEq, Repr

structure QuoteResponse where
  quoteId : String
  timestamp : ℕ
  quoteRequest : QuoteRequest
  quote : Quote
deriving DecidableEq, Repr

structure SwapDetails where
  nearTxHashes : List String
  destinationTxHash : Option String
  amountIn : String
  amountOut : Option ℚ
  executionTime : ℕ
deriving DecidableEq, Repr

/-- `StoredSwap`, the record kept in the simulator's `swaps` map. -/
structure StoredSwap where
  quoteResponse : QuoteResponse
  status : SwapStatus
  createdAt : ℕ
  updatedAt : ℕ
  swapDetails : Option SwapDetails := none
  error : Option String := none
deriving DecidableEq, Repr

structure SwapStatusResponse where
  quoteResponse : QuoteResponse
  status : SwapStatus
  updatedAt : ℕ
  swapDetails : Option SwapDetails
  error : Option String
deriving DecidableEq, Repr

structure NearTxResult where
  txHash : String
  blockHeight : ℕ

structure DerivedAddress where
  address : String
  publicKey : String

/-- `NearExecutionAdapter`.  The fourth argument of `sendNearTransfer` is the
decimal string `(parseFloat(amountYocto) / 1e24).toString()` in the source;
it is modelled by the rational it denotes (`none` for `NaN`). -/
structure NearExecutionAdapter where
  sendNearTransfer : String → String → String → Option ℚ → Except String NearTxResult

/-- `CrossChainAdapter`: `deriveAddress(nearAccount, chain)` and
`simulateDestinationTx({chain, correlateTo})`. -/
structure CrossChainAdapter where
  deriveAddress : String → String → Except String DerivedAddress
  simulateDestinationTx : String → String → Except String String

/-- The constructor options of `OneClickSimulator`. -/
structure OneClickConfig where
  crossChain : CrossChainAdapter
  nearExec : Option NearExecutionAdapter := none

/-! ## JavaScript primitives -/

/-- Accumulate a digit list (most significant first) into a natural number. -/
def digitsToNat (ds : List Char) : ℕ :=
  ds.foldl (fun acc c => 10 * acc + (c.toNat - Char.toNat '0')) 0

/-- The optional exponent tail of a JS float literal: `e`/`E`, an optional
sign, digits.  As in `parseFloat`, a bare `e` with no digits is ignored. -/
def parseExponent (cs : List Char) : ℤ :=
  match cs with
  | 'e' :: rest | 'E' :: rest =>
    match rest with
    | '+' :: r =>
      let (eds, _) := r.span Char.isDigit
      if eds.isEmpty then 0 else (digitsToNat eds : ℤ)
    | '-' :: r =>
      let (eds, _) := r.span Char.isDigit
      if eds.isEmpty then 0 else -(digitsToNat eds : ℤ)
    | _ =>
      let (eds, _) := rest.span Char.isDigit
      if eds.isEmpty then 0 else (digitsToNat eds : ℤ)
  | _ => 0

/-- JavaScript `parseFloat`: skip leading whitespace, read an optional sign, a
decimal mantissa and an optional exponent, and ignore any trailing
characters; return `none` (i.e. `NaN`) if no digits were read.  (The literal
`Infinity`, which real `parseFloat` also accepts, has no rational value and
is not modelled; no quantity in this development uses it.) -/
def parseFloat (s : String) : Option ℚ :=
  let cs := s.data.dropWhile (fun c =>
    c == ' ' || c == '\t' || c == '\n' || c == '\r')
  let signAndRest : ℚ × List Char :=
    match cs with
    | '-' :: r => (-1, r)
    | '+' :: r => (1, r)
    | _ => (1, cs)
  let (intDs, cs₂) := signAndRest.2.span Char.isDigit
  let fracAndRest : List Char × List Char :=
    match cs₂ with
    | '.' :: r => r.span Char.isDigit
    | _ => ([], cs₂)
  let fracDs := fracAndRest.1
  if intDs.isEmpty && fracDs.isEmpty then none
  else
    let mantissa : ℚ :=
      (digitsToNat intDs : ℚ) + (digitsToNat fracDs : ℚ) / 10 ^ fracDs.length
    some (signAndRest.1 * mantissa * (10 : ℚ) ^ parseExponent fracAndRest.2)

/-- `Number.prototype.toFixed d`, on exact values: round to `d` decimal
places (nearest, ties toward the larger value, per the ECMAScript spec). -/
def toFixedQ (d : ℕ) (x : ℚ) : ℚ :=
  ((round (x * 10 ^ d) : ℤ) : ℚ) / 10 ^ d

/-! ## Asset registry (getDecimals / getSymbol) -/

/-- `asset.split(':')[0]` — `String.splitOn` never returns `[]`. -/
def assetChain (asset : String) : String :=
  (asset.splitOn ":").headD ""

/-- `asset.split(':')[1]` — `none` models JS `undefined`. -/
def assetToken (asset : String) : Option String :=
  (asset.splitOn ":")[1]?

/-- The template-literal key `` `${chain}:${token}` `` ; an `undefined` token
interpolates as the string "undefined". -/
def registryKey (chain : String) (token : Option String) : String :=
  chain ++ ":" ++ token.getD "undefined"

def decimalsRegistry : List (String × ℕ) :=
  [("near:native", 24), ("near:wrap.near", 24), ("near:usdc.near", 6),
   ("ethereum:native", 18), ("ethereum:usdc.eth", 6),
   ("bitcoin:native", 8), ("dogecoin:native", 8)]

/-- `getDecimals`: registry lookup with `|| 18` fallback (no registry value is
`0`, so `||` is a plain default here). -/
def getDecimals (chain : String) (token : Option String) : ℕ :=
  (decimalsRegistry.lookup (registryKey chain token)).getD 18

def symbolsRegistry : List (String × String) :=
  [("near:native", "NEAR"), ("near:wrap.near", "wNEAR"),
   ("near:usdc.near", "USDC"), ("ethereum:native", "ETH"),
   ("ethereum:usdc.eth", "USDC"), ("bitcoin:native", "BTC"),
   ("dogecoin:native", "DOGE")]

/-- `getSymbol`: registry lookup with `|| token` fallback; an `undefined`
token interpolates as "undefined" where the symbol is used. -/
def getSymbol (chain : String) (token : Option String) : String :=
  (symbolsRegistry.lookup (registryKey chain token)).getD (token.getD "undefined")

/-! ## Quote engine -/

/-- `const feePercent = 0.003; // 0.3% fee` -/
def feePercent : ℚ := 0.003

/-- `const slippage = request.slippageTolerance || 0.01;`
JS `||` takes the default when the field is `undefined` or `0` (both falsy). -/
def effectiveSlippage (request : QuoteRequest) : ℚ :=
  match request.slippageTolerance with
  | some s => if s = 0 then 0.01 else s
  | none => 0.01

/-- The numeric value `amountOutWithSlippage` before `toFixed` formatting:
`amountInNum * (1 - feePercent) * (1 - slippage)` (`none` = `NaN`). -/
def amountOutWithSlippage (request : QuoteRequest) : Option ℚ :=
  (parseFloat request.amount).map
    (fun x => x * (1 - feePercent) * (1 - effectiveSlippage request))

/-- `OneClickSimulator.calculateQuote`.  The only fallible part is the
`deriveAddress` call for a non-`near` origin chain. -/
def calculateQuote (crossChain : CrossChainAdapter) (now : ℕ)
    (request : QuoteRequest) : Except String Quote :=
  let originChain := assetChain request.originAsset
  let originToken := assetToken request.originAsset
  let destChain := assetChain request.destinationAsset
  let destToken := assetToken request.destinationAsset
  let originDecimals := getDecimals originChain originToken
  let destDecimals := getDecimals destChain destToken
  let amountInNum := parseFloat request.amount
  let depositAddressE : Except String String :=
    if originChain = "near" then Except.ok request.refundTo
    else
      match crossChain.deriveAddress request.refundTo originChain with
      | Except.ok derived => Except.ok derived.address
      | Except.error e => Except.error e
  match depositAddressE with
  | Except.error e => Except.error e
  | Except.ok depositAddress =>
    let isCrossChain : Bool := originChain != destChain
    Except.ok
      { depositAddress := depositAddress
        amountIn := request.amount
        amountOut := (amountOutWithSlippage request).map (toFixedQ destDecimals)
        deadline := now + 5 * 60 * 1000
        timeEstimate := if isCrossChain then 45 else 7
        fee := amountInNum.map (fun x => toFixedQ originDecimals (x * feePercent))
        route :=
          if isCrossChain then
            [{ stepFrom := getSymbol originChain originToken
               stepTo := getSymbol originChain originToken ++ " (bridged)"
               protocol := "rainbow-bridge" },
             { stepFrom := getSymbol originChain originToken ++ " (bridged)"
               stepTo := getSymbol destChain destToken
               protocol := "uniswap-v3" }]
          else
            [{ stepFrom := getSymbol originChain originToken
               stepTo := getSymbol destChain destToken
               protocol := "ref-finance" }] }

/-! ## Request validation -/

/-- The amount test of `validateQuoteRequest`:
`!request.amount || parseFloat(request.amount) <= 0`.
Note `parseFloat` of a non-numeric string is `NaN`, and `NaN <= 0` is
`false` in JS, so a non-numeric non-empty amount does NOT trip this check. -/
def amountInvalid (amount : String) : Bool :=
  amount == "" ||
    (match parseFloat amount with
     | some v => decide (v ≤ 0)
     | none => false)

/-- `OneClickSimulator.validateQuoteRequest` (JS string falsiness = ""). -/
def validateQuoteRequest (request : QuoteRequest) : Except String Unit :=
  if request.originAsset == "" || request.destinationAsset == "" then
    Except.error "Origin and destination assets required"
  else if amountInvalid request.amount then
    Except.error "Valid amount required"
  else if request.refundTo == "" || request.recipient == "" then
    Except.error "Refund and recipient addresses required"
  else
    Except.ok ()

/-! ## Swap registry and simulator state -/

/-- `this.swaps.get(id)` on the association-list model of the `Map`. -/
def lookupSwap (id : String) : List (String × StoredSwap) → Option StoredSwap
  | [] => none
  | (k, v) :: rest => if k = id then some v else lookupSwap id rest

/-- Update the record stored at `id` in place (the orchestrator mutates the
record it obtained from `this.swaps.get`). -/
def setSwap (id : String) (f : StoredSwap → StoredSwap) :
    List (String × StoredSwap) → List (String × StoredSwap)
  | [] => []
  | (k, v) :: rest =>
    if k = id then (k, f v) :: setSwap id f rest
    else (k, v) :: setSwap id f rest

/-- The simulator state: the `swaps` map plus the pending asynchronous
orchestration tasks.  `scheduled` holds ids whose `simulateExecution` task was
queued by `setTimeout` but has not started; `running` holds ids whose task has
performed the `PROCESSING` write and is awaiting its simulated delay. -/
structure SimState where
  swaps : List (String × StoredSwap) := []
  scheduled : List String := []
  running : List String := []

def initState : SimState := { swaps := [], scheduled := [], running := [] }

/-- `OneClickSimulator.requestQuote`: validate, compute the quote, store the
`PENDING_DEPOSIT` record, and schedule orchestration unless `request.dry`.
`uuid` models `randomUUID()`, `now` the current time. -/
def requestQuote (cfg : OneClickConfig) (uuid : String) (now : ℕ)
    (request : QuoteRequest) (s : SimState) :
    Except String (QuoteResponse × SimState) :=
  match validateQuoteRequest request with
  | Except.error e => Except.error e
  | Except.ok _ =>
    match calculateQuote cfg.crossChain now request with
    | Except.error e => Except.error e
    | Except.ok quote =>
      let quoteResponse : QuoteResponse :=
        { quoteId := uuid, timestamp := now, quoteRequest := request,
          quote := quote }
      let stored : StoredSwap :=
        { quoteResponse := quoteResponse, status := SwapStatus.PENDING_DEPOSIT,
          createdAt := now, updatedAt := now, swapDetails := none,
          error := none }
      Except.ok (quoteResponse,
        { swaps := (uuid, stored) :: s.swaps
          scheduled := if request.dry then s.scheduled else uuid :: s.scheduled
          running := s.running })

/-- `OneClickSimulator.getSwapStatus`.  The method only reads `this.swaps`;
the returned state is the (unchanged) registry. -/
def getSwapStatus (s : SimState) (quoteId : String) :
    Except String SwapStatusResponse × SimState :=
  match lookupSwap quoteId s.swaps with
  | none => (Except.error ("Quote not found: " ++ quoteId), s)
  | some swap =>
    (Except.ok
      { quoteResponse := swap.quoteResponse, status := swap.status,
        updatedAt := swap.updatedAt, swapDetails := swap.swapDetails,
        error := swap.error }, s)

/-! ## Execution orchestrator (simulateExecution) -/

/-- `generateMockTxHash`: a chain-family prefix plus 64 random hex digits;
`randHex` models the random part. -/
def generateMockTxHash (randHex : String) (chain : String) : String :=
  let pfx : String :=
    if chain = "NEAR" then "" else if chain = "ETHEREUM" then "0x"
    else if chain = "BITCOIN" then "" else ""
  pfx ++ randHex

/-- `recipientAccount` of `simulateExecution`: the request's recipient when
the destination asset is on the local chain, otherwise `undefined`. -/
def recipientAccountOf (request : QuoteRequest) : Option String :=
  if request.destinationAsset.startsWith "near:" then some request.recipient
  else none

/-- The origin-transfer step of `simulateExecution`: use the adapter when it
is configured and a (truthy) recipient account exists, falling back to a mock
hash when the adapter call rejects; otherwise use a mock hash directly.
The credential argument is
`(quoteReq as any)._senderEncryptedPrivateKey || ''` in the source; that
field is not part of the typed `QuoteRequest`, so the `''` fallback is what
is passed here. -/
def nearTxHashOf (cfg : OneClickConfig) (swap : StoredSwap)
    (randHex : String) : String :=
  let quoteReq := swap.quoteResponse.quoteRequest
  match cfg.nearExec, recipientAccountOf quoteReq with
  | some ne, some r =>
    if r = "" then generateMockTxHash randHex "NEAR"
    else
      match ne.sendNearTransfer quoteReq.refundTo "" r
          ((parseFloat swap.quoteResponse.quote.amountIn).map
            (fun x => x / 10 ^ 24)) with
      | Except.ok result => result.txHash
      | Except.error _ => generateMockTxHash randHex "NEAR"
  | _, _ => generateMockTxHash randHex "NEAR"

/-- The `SUCCESS` write of `simulateExecution`. -/
def successUpdate (swap : StoredSwap) (now : ℕ) (nearTx : String)
    (destTx : Option String) : StoredSwap :=
  { swap with
    status := SwapStatus.SUCCESS
    updatedAt := now
    swapDetails := some
      { nearTxHashes := [nearTx]
        destinationTxHash := destTx
        amountIn := swap.quoteResponse.quoteRequest.amount
        amountOut := swap.quoteResponse.quote.amountOut
        executionTime := (now - swap.createdAt) / 1000 } }

/-- The body of `simulateExecution` after the `PROCESSING` write: the origin
transfer (with its internal fallback), then the destination-chain step, whose
failure is NOT caught and lands in the outer `catch` (status `FAILED`, the
error message recorded, `swapDetails` untouched). -/
def finishOutcome (cfg : OneClickConfig) (swap : StoredSwap) (now : ℕ)
    (randHex : String) : StoredSwap :=
  let nearTx := nearTxHashOf cfg swap randHex
  let destChain := assetChain swap.quoteResponse.quoteRequest.destinationAsset
  if destChain = "near" then successUpdate swap now nearTx none
  else
    match cfg.crossChain.simulateDestinationTx destChain nearTx with
    | Except.ok destTx => successUpdate swap now nearTx (some destTx)
    | Except.error e =>
      { swap with
          status := SwapStatus.FAILED
          updatedAt := now
          error := some e }

/-- Phase 1 of a scheduled `simulateExecution` task: the early return when
the record is missing, else the `PROCESSING` write (everything up to the
first `await`). -/
def startExecution (id : String) (now : ℕ) (s : SimState) : SimState :=
  match lookupSwap id s.swaps with
  | none => { s with scheduled := s.scheduled.filter (fun x => x != id) }
  | some _ =>
    { swaps := setSwap id
        (fun sw => { sw with status := SwapStatus.PROCESSING, updatedAt := now })
        s.swaps
      scheduled := s.scheduled.filter (fun x => x != id)
      running := id :: s.running }

/-- Phase 2 of a `simulateExecution` task: the rest of the body. -/
def finishExecution (cfg : OneClickConfig) (id : String) (now : ℕ)
    (randHex : String) (s : SimState) : SimState :=
  match lookupSwap id s.swaps with
  | none => { s with running := s.running.filter (fun x => x != id) }
  | some _ =>
    { swaps := setSwap id (fun sw => finishOutcome cfg sw now randHex) s.swaps
      scheduled := s.scheduled
      running := s.running.filter (fun x => x != id) }

/-! ## The event system -/

/-- One observable event of a simulator instance: a successful `requestQuote`
call (with a fresh `randomUUID`), or one of the two phases of a scheduled
orchestration task.  A failed `requestQuote` or any `getSwapStatus` call
leaves the state unchanged and needs no step. -/
inductive Step (cfg : OneClickConfig) : SimState → SimState → Prop where
  | quote (s : SimState) (uuid : String) (now : ℕ) (request : QuoteRequest)
      (out : QuoteResponse × SimState) :
      lookupSwap uuid s.swaps = none →
      requestQuote cfg uuid now request s = Except.ok out →
      Step cfg s out.2
  | start (s : SimState) (id : String) (now : ℕ) :
      id ∈ s.scheduled →
      Step cfg s (startExecution id now s)
  | finish (s : SimState) (id : String) (now : ℕ) (randHex : String) :
      id ∈ s.running →
      Step cfg s (finishExecution cfg id now randHex s)

/-- States reachable by a simulator instance from its empty constructor
state. -/
def Reachable (cfg : OneClickConfig) (s : SimState) : Prop :=
  Relation.ReflTransGen (Step cfg) initState s

/-! ## Registry lemmas -/

theorem lookupSwap_setSwap_self (id : String) (f : StoredSwap → StoredSwap)
    (l : List (String × StoredSwap)) :
    lookupSwap id (setSwap id f l) = (lookupSwap id l).map f := by
  induction l with
  | nil => rfl
  | cons p rest ih =>
    obtain ⟨k, v⟩ := p
    by_cases hk : k = id
    · subst hk
      simp [setSwap, lookupSwap]
    · simp [setSwap, lookupSwap, hk, ih]

theorem lookupSwap_setSwap_ne {i id : String} (f : StoredSwap → StoredSwap)
    (l : List (String × StoredSwap)) (h : i ≠ id) :
    lookupSwap i (setSwap id f l) = lookupSwap i l := by
  induction l with
  | nil => rfl
  | cons p rest ih =>
    obtain ⟨k, v⟩ := p
    by_cases hk : k = id
    · subst hk
      have hne := Ne.symm h
      simp [setSwap, lookupSwap, hne, ih]
    · by_cases hi : k = i
      · subst hi
        simp [setSwap, lookupSwap, hk]
      · simp [setSwap, lookupSwap, hk, hi, ih]

theorem mem_filter_ne {x id : String} {l : List String} :
    x ∈ l.filter (fun y => y != id) ↔ x ∈ l ∧ x ≠ id := by
  simp [List.mem_filter]

/-! ## Characterization lemmas -/

/-- A request that passed validation has a positive parsed amount (when the
amount parses at all). -/
theorem amount_pos_of_validate_ok {request : QuoteRequest} {a : ℚ}
    (hv : validateQuoteRequest request = Except.ok ())
    (hp : parseFloat request.amount = some a) : 0 < a := by
  unfold validateQuoteRequest at hv
  split_ifs at hv with h1 h2 h3
  simp only [amountInvalid, hp, Bool.or_eq_true, beq_iff_eq,
    decide_eq_true_eq] at h2
  push_neg at h2
  exact h2.2

/-- What a successful `requestQuote` returns and stores. -/
theorem requestQuote_ok {cfg : OneClickConfig} {uuid : String} {now : ℕ}
    {request : QuoteRequest} {s : SimState} {out : QuoteResponse × SimState}
    (h : requestQuote cfg uuid now request s = Except.ok out) :
    validateQuoteRequest request = Except.ok () ∧
    calculateQuote cfg.crossChain now request = Except.ok out.1.quote ∧
    out.1.quoteId = uuid ∧
    out.1.quoteRequest = request ∧
    out.2.swaps = (uuid,
      { quoteResponse := out.1, status := SwapStatus.PENDING_DEPOSIT,
        createdAt := now, updatedAt := now, swapDetails := none,
        error := none }) :: s.swaps ∧
    out.2.scheduled =
      (if request.dry then s.scheduled else uuid :: s.scheduled) ∧
    out.2.running = s.running := by
  cases hv : validateQuoteRequest request with
  | error e => simp [requestQuote, hv] at h
  | ok u =>
    cases hq : calculateQuote cfg.crossChain now request with
    | error e => simp [requestQuote, hv, hq] at h
    | ok q =>
      simp only [requestQuote, hv, hq, Except.ok.injEq] at h
      subst h
      exact ⟨rfl, rfl, rfl, rfl, rfl, rfl, rfl⟩

/-- Projections of a successfully computed quote. -/
theorem calculateQuote_ok {cc : CrossChainAdapter} {now : ℕ}
    {request : QuoteRequest} {q : Quote}
    (h : calculateQuote cc now request = Except.ok q) :
    q.fee = (parseFloat request.amount).map
      (fun x => toFixedQ
        (getDecimals (assetChain request.originAsset)
          (assetToken request.originAsset)) (x * feePercent)) ∧
    q.amountOut = (amountOutWithSlippage request).map
      (toFixedQ (getDecimals (assetChain request.destinationAsset)
        (assetToken request.destinationAsset))) ∧
    q.timeEstimate =
      (if assetChain request.originAsset = assetChain request.destinationAsset
       then 7 else 45) ∧
    q.route.map RouteStep.protocol =
      (if assetChain request.originAsset = assetChain request.destinationAsset
       then ["ref-finance"] else ["rainbow-bridge", "uniswap-v3"]) ∧
    q.amountIn = request.amount := by
  simp only [calculateQuote] at h
  split at h
  · exact Except.noConfusion h
  · simp only [Except.ok.injEq] at h
    subst h
    refine ⟨rfl, rfl, ?_, ?_, rfl⟩
    · by_cases hc :
        assetChain request.originAsset = assetChain request.destinationAsset
      · simp [hc]
      · simp [hc]
    · by_cases hc :
        assetChain request.originAsset = assetChain request.destinationAsset
      · simp [hc]
      · simp [hc]

/-- `finishOutcome` terminates the lifecycle: the resulting status is
`SUCCESS` or `FAILED`. -/
theorem finishOutcome_status (cfg : OneClickConfig) (swap : StoredSwap)
    (now : ℕ) (randHex : String) :
    (finishOutcome cfg swap now randHex).status = SwapStatus.SUCCESS ∨
    (finishOutcome cfg swap now randHex).status = SwapStatus.FAILED := by
  simp only [finishOutcome]
  split
  · left; rfl
  · split
    · left; rfl
    · right; rfl

/-- `finishOutcome` never rewrites the immutable `quoteResponse`. -/
theorem finishOutcome_quoteResponse (cfg : OneClickConfig) (swap : StoredSwap)
    (now : ℕ) (randHex : String) :
    (finishOutcome cfg swap now randHex).quoteResponse = swap.quoteResponse := by
  simp only [finishOutcome]
  split
  · rfl
  · split
    · rfl
    · rfl

theorem lookupSwap_cons (k : String) (v : StoredSwap)
    (l : List (String × StoredSwap)) (i : String) :
    lookupSwap i ((k, v) :: l) = if k = i then some v else lookupSwap i l := rfl

/-! ## The lifecycle invariant -/

/-- The status domain actually reachable by the orchestration logic: the
declared states `INCOMPLETE_DEPOSIT` and `REFUNDED` are absent. -/
def StatusOk (st : SwapStatus) : Prop :=
  st = SwapStatus.PENDING_DEPOSIT ∨ st = SwapStatus.PROCESSING ∨
  st = SwapStatus.SUCCESS ∨ st = SwapStatus.FAILED

/-- Invariant of every reachable simulator state: all stored statuses lie in
the four reachable states; a record created by a `dry` request has no
orchestration task and is still `PENDING_DEPOSIT`; ids whose task is
scheduled (resp. past the `PROCESSING` write) belong to a stored record in
the matching status with no `swapDetails` yet. -/
structure Inv (s : SimState) : Prop where
  statusOk : ∀ id sw, lookupSwap id s.swaps = some sw → StatusOk sw.status
  dryFrozen : ∀ id sw, lookupSwap id s.swaps = some sw →
    sw.quoteResponse.quoteRequest.dry = true →
    sw.status = SwapStatus.PENDING_DEPOSIT ∧ id ∉ s.scheduled ∧ id ∉ s.running
  schedOk : ∀ id, id ∈ s.scheduled → ∃ sw, lookupSwap id s.swaps = some sw ∧
    sw.status = SwapStatus.PENDING_DEPOSIT ∧ sw.swapDetails = none
  runOk : ∀ id, id ∈ s.running → ∃ sw, lookupSwap id s.swaps = some sw ∧
    sw.status = SwapStatus.PROCESSING ∧ sw.swapDetails = none

theorem inv_init : Inv initState := by
  refine ⟨?_, ?_, ?_, ?_⟩
  · intro id sw h
    simp [initState, lookupSwap] at h
  · intro id sw h
    simp [initState, lookupSwap] at h
  · intro id h
    simp [initState] at h
  · intro id h
    simp [initState] at h

theorem inv_quote {cfg : OneClickConfig} {uuid : String} {now : ℕ}
    {request : QuoteRequest} {s : SimState} {out : QuoteResponse × SimState}
    (hInv : Inv s) (hfresh : lookupSwap uuid s.swaps = none)
    (h : requestQuote cfg uuid now request s = Except.ok out) :
    Inv out.2 := by
  obtain ⟨hv, hq, hid, hreq, hswaps, hsched, hrun⟩ := requestQuote_ok h
  have huuidSched : uuid ∉ s.scheduled := by
    intro hmem
    obtain ⟨sw, hsw, _⟩ := hInv.schedOk uuid hmem
    rw [hfresh] at hsw
    exact Option.noConfusion hsw
  have huuidRun : uuid ∉ s.running := by
    intro hmem
    obtain ⟨sw, hsw, _⟩ := hInv.runOk uuid hmem
    rw [hfresh] at hsw
    exact Option.noConfusion hsw
  have hlook : ∀ i, lookupSwap i out.2.swaps =
      if uuid = i then
        some { quoteResponse := out.1, status := SwapStatus.PENDING_DEPOSIT,
               createdAt := now, updatedAt := now, swapDetails := none,
               error := none }
      else lookupSwap i s.swaps := by
    intro i
    rw [hswaps, lookupSwap_cons]
  refine ⟨?_, ?_, ?_, ?_⟩
  · intro id sw h'
    rw [hlook id] at h'
    by_cases hi : uuid = id
    · rw [if_pos hi] at h'
      injection h' with h''
      rw [← h'']
      exact Or.inl rfl
    · rw [if_neg hi] at h'
      exact hInv.statusOk id sw h'
  · intro id sw h' hdry
    rw [hlook id] at h'
    by_cases hi : uuid = id
    · rw [if_pos hi] at h'
      injection h' with h''
      subst h''
      refine ⟨rfl, ?_, ?_⟩
      · rw [hsched]
        have hd : request.dry = true := by
          rw [← hreq]
          exact hdry
        rw [if_pos hd, ← hi]
        exact huuidSched
      · rw [hrun, ← hi]
        exact huuidRun
    · rw [if_neg hi] at h'
      obtain ⟨hstat, hsch, hrn⟩ := hInv.dryFrozen id sw h' hdry
      refine ⟨hstat, ?_, ?_⟩
      · rw [hsched]
        by_cases hd : request.dry = true
        · rw [if_pos hd]
          exact hsch
        · rw [if_neg hd]
          intro hmem
          rcases List.mem_cons.mp hmem with he | hmem'
          · exact hi he.symm
          · exact hsch hmem'
      · rw [hrun]
        exact hrn
  · intro id hmem
    rw [hsched] at hmem
    by_cases hd : request.dry = true
    · rw [if_pos hd] at hmem
      obtain ⟨sw, hsw, hst, hdet⟩ := hInv.schedOk id hmem
      have hne : uuid ≠ id := by
        intro he
        rw [← he, hfresh] at hsw
        exact Option.noConfusion hsw
      refine ⟨sw, ?_, hst, hdet⟩
      rw [hlook id, if_neg hne]
      exact hsw
    · rw [if_neg hd] at hmem
      rcases List.mem_cons.mp hmem with he | hmem'
      · subst he
        refine ⟨{ quoteResponse := out.1, status := SwapStatus.PENDING_DEPOSIT,
                  createdAt := now, updatedAt := now, swapDetails := none,
                  error := none }, ?_, rfl, rfl⟩
        rw [hlook id, if_pos rfl]
      · obtain ⟨sw, hsw, hst, hdet⟩ := hInv.schedOk id hmem'
        have hne : uuid ≠ id := by
          intro he
          rw [← he, hfresh] at hsw
          exact Option.noConfusion hsw
        refine ⟨sw, ?_, hst, hdet⟩
        rw [hlook id, if_neg hne]
        exact hsw
  · intro id hmem
    rw [hrun] at hmem
    obtain ⟨sw, hsw, hst, hdet⟩ := hInv.runOk id hmem
    have hne : uuid ≠ id := by
      intro he
      rw [← he, hfresh] at hsw
      exact Option.noConfusion hsw
    refine ⟨sw, ?_, hst, hdet⟩
    rw [hlook id, if_neg hne]
    exact hsw

theorem inv_start {s : SimState} {id : String} {now : ℕ}
    (hInv : Inv s) (hmem : id ∈ s.scheduled) :
    Inv (startExecution id now s) := by
  obtain ⟨w, hw, hwPend, hwNone⟩ := hInv.schedOk id hmem
  have hnotdry : ¬ w.quoteResponse.quoteRequest.dry = true := by
    intro hdry
    exact (hInv.dryFrozen id w hw hdry).2.1 hmem
  simp only [startExecution, hw]
  refine ⟨?_, ?_, ?_, ?_⟩
  · intro i sw h'
    by_cases hi : i = id
    · subst hi
      rw [lookupSwap_setSwap_self, hw] at h'
      injection h' with h''
      rw [← h'']
      exact Or.inr (Or.inl rfl)
    · rw [lookupSwap_setSwap_ne _ _ hi] at h'
      exact hInv.statusOk i sw h'
  · intro i sw h' hdry
    by_cases hi : i = id
    · subst hi
      rw [lookupSwap_setSwap_self, hw] at h'
      injection h' with h''
      rw [← h''] at hdry
      exact absurd hdry hnotdry
    · rw [lookupSwap_setSwap_ne _ _ hi] at h'
      obtain ⟨hstat, hsch, hrn⟩ := hInv.dryFrozen i sw h' hdry
      refine ⟨hstat, ?_, ?_⟩
      · intro hmem'
        exact hsch (mem_filter_ne.mp hmem').1
      · intro hmem'
        rcases List.mem_cons.mp hmem' with he | hmem''
        · exact hi he
        · exact hrn hmem''
  · intro i hmem'
    obtain ⟨hiMem, hiNe⟩ := mem_filter_ne.mp hmem'
    obtain ⟨sw, hsw, hst, hdet⟩ := hInv.schedOk i hiMem
    refine ⟨sw, ?_, hst, hdet⟩
    rw [lookupSwap_setSwap_ne _ _ hiNe]
    exact hsw
  · intro i hmem'
    rcases List.mem_cons.mp hmem' with he | hmem''
    · subst he
      refine ⟨{ w with status := SwapStatus.PROCESSING, updatedAt := now },
        ?_, rfl, ?_⟩
      · rw [lookupSwap_setSwap_self, hw]
        rfl
      · exact hwNone
    · obtain ⟨sw, hsw, hst, hdet⟩ := hInv.runOk i hmem''
      have hine : i ≠ id := by
        intro he
        subst he
        rw [hw] at hsw
        injection hsw with h''
        rw [← h''] at hst
        rw [hwPend] at hst
        exact SwapStatus.noConfusion hst
      refine ⟨sw, ?_, hst, hdet⟩
      rw [lookupSwap_setSwap_ne _ _ hine]
      exact hsw

theorem inv_finish {cfg : OneClickConfig} {s : SimState} {id : String}
    {now : ℕ} {randHex : String}
    (hInv : Inv s) (hmem : id ∈ s.running) :
    Inv (finishExecution cfg id now randHex s) := by
  obtain ⟨w, hw, hwProc, hwNone⟩ := hInv.runOk id hmem
  have hnotdry : ¬ w.quoteResponse.quoteRequest.dry = true := by
    intro hdry
    exact (hInv.dryFrozen id w hw hdry).2.2 hmem
  simp only [finishExecution, hw]
  refine ⟨?_, ?_, ?_, ?_⟩
  · intro i sw h'
    by_cases hi : i = id
    · subst hi
      rw [lookupSwap_setSwap_self, hw] at h'
      injection h' with h''
      rw [← h'']
      rcases finishOutcome_status cfg w now randHex with hs | hs
      · exact Or.inr (Or.inr (Or.inl hs))
      · exact Or.inr (Or.inr (Or.inr hs))
    · rw [lookupSwap_setSwap_ne _ _ hi] at h'
      exact hInv.statusOk i sw h'
  · intro i sw h' hdry
    by_cases hi : i = id
    · subst hi
      rw [lookupSwap_setSwap_self, hw] at h'
      injection h' with h''
      rw [← h'', finishOutcome_quoteResponse] at hdry
      exact absurd hdry hnotdry
    · rw [lookupSwap_setSwap_ne _ _ hi] at h'
      obtain ⟨hstat, hsch, hrn⟩ := hInv.dryFrozen i sw h' hdry
      refine ⟨hstat, hsch, ?_⟩
      intro hmem'
      exact hrn (mem_filter_ne.mp hmem').1
  · intro i hmem'
    obtain ⟨sw, hsw, hst, hdet⟩ := hInv.schedOk i hmem'
    have hine : i ≠ id := by
      intro he
      subst he
      rw [hw] at hsw
      injection hsw with h''
      rw [← h''] at hst
      rw [hwProc] at hst
      exact SwapStatus.noConfusion hst
    refine ⟨sw, ?_, hst, hdet⟩
    rw [lookupSwap_setSwap_ne _ _ hine]
    exact hsw
  · intro i hmem'
    obtain ⟨hiMem, hiNe⟩ := mem_filter_ne.mp hmem'
    obtain ⟨sw, hsw, hst, hdet⟩ := hInv.runOk i hiMem
    refine ⟨sw, ?_, hst, hdet⟩
    rw [lookupSwap_setSwap_ne _ _ hiNe]
    exact hsw

theorem inv_step {cfg : OneClickConfig} {s s' : SimState}
    (hInv : Inv s) (hstep : Step cfg s s') : Inv s' := by
  cases hstep with
  | quote uuid now request out hfresh h => exact inv_quote hInv hfresh h
  | start id now hmem => exact inv_start hInv hmem
  | finish id now randHex hmem => exact inv_finish hInv hmem

theorem reachable_inv {cfg : OneClickConfig} {s : SimState}
    (h : Reachable cfg s) : Inv s := by
  have h' : Relation.ReflTransGen (Step cfg) initState s := h
  clear h
  induction h' with
  | refl => exact inv_init
  | tail _ hstep ih => exact inv_step ih hstep

/-- How one step may change the status of one stored record. -/
theorem step_status_change {cfg : OneClickConfig} {s s' : SimState}
    (hInv : Inv s) (hstep : Step cfg s s') {id : String} {r r' : StoredSwap}
    (h1 : lookupSwap id s.swaps = some r)
    (h2 : lookupSwap id s'.swaps = some r') :
    r.status = r'.status ∨
    (r.status = SwapStatus.PENDING_DEPOSIT ∧
      r'.status = SwapStatus.PROCESSING) ∨
    (r.status = SwapStatus.PROCESSING ∧
      (r'.status = SwapStatus.SUCCESS ∨ r'.status = SwapStatus.FAILED)) := by
  cases hstep with
  | quote uuid now request out hfresh h =>
    obtain ⟨_, _, _, _, hswaps, _, _⟩ := requestQuote_ok h
    rw [hswaps, lookupSwap_cons] at h2
    have hne : uuid ≠ id := by
      intro he
      rw [← he, hfresh] at h1
      exact Option.noConfusion h1
    rw [if_neg hne] at h2
    rw [h1] at h2
    injection h2 with h''
    rw [h'']
    exact Or.inl rfl
  | start sid now hmem =>
    obtain ⟨w, hw, hwPend, _⟩ := hInv.schedOk sid hmem
    simp only [startExecution, hw] at h2
    by_cases hi : id = sid
    · subst hi
      rw [lookupSwap_setSwap_self, hw] at h2
      rw [hw] at h1
      injection h1 with hrw
      injection h2 with hrw'
      rw [← hrw, ← hrw']
      exact Or.inr (Or.inl ⟨hwPend, rfl⟩)
    · rw [lookupSwap_setSwap_ne _ _ hi] at h2
      rw [h1] at h2
      injection h2 with h''
      rw [h'']
      exact Or.inl rfl
  | finish fid now randHex hmem =>
    obtain ⟨w, hw, hwProc, _⟩ := hInv.runOk fid hmem
    simp only [finishExecution, hw] at h2
    by_cases hi : id = fid
    · subst hi
      rw [lookupSwap_setSwap_self, hw] at h2
      rw [hw] at h1
      injection h1 with hrw
      injection h2 with hrw'
      rw [← hrw, ← hrw']
      exact Or.inr (Or.inr ⟨hwProc, finishOutcome_status _ _ _ _⟩)
    · rw [lookupSwap_setSwap_ne _ _ hi] at h2
      rw [h1] at h2
      injection h2 with h''
      rw [h'']
      exact Or.inl rfl

/-! ## Concrete instances used to witness the theorems -/

instance {ε α : Type} [DecidableEq ε] [DecidableEq α] :
    DecidableEq (Except ε α) := fun a b =>
  match a, b with
  | Except.error e, Except.error f =>
    if h : e = f then isTrue (by rw [h]) else
      isFalse (fun he => h (Except.error.inj he))
  | Except.error _, Except.ok _ => isFalse (fun he => Except.noConfusion he)
  | Except.ok _, Except.error _ => isFalse (fun he => Except.noConfusion he)
  | Except.ok x, Except.ok y =>
    if h : x = y then isTrue (by rw [h]) else
      isFalse (fun he => h (Except.ok.inj he))

def demoCrossChain : CrossChainAdapter :=
  { deriveAddress := fun _ _ =>
      Except.ok { address := "0xderived", publicKey := "pk" }
    simulateDestinationTx := fun _ _ => Except.ok "0xdesttx" }

def demoCfg : OneClickConfig :=
  { crossChain := demoCrossChain, nearExec := none }

def demoReq : QuoteRequest :=
  { swapType := SwapType.EXACT_INPUT
    slippageTolerance := some (1 / 20)
    originAsset := "near:native"
    destinationAsset := "near:wrap.near"
    amount := "1000000"
    refundTo := "alice"
    recipient := "bob" }

def junkQuote : Quote :=
  { depositAddress := "", amountIn := "", amountOut := none, deadline := 0,
    timeEstimate := 0, fee := none, route := [] }

def junkQR : QuoteResponse :=
  { quoteId := "", timestamp := 0, quoteRequest := demoReq, quote := junkQuote }

def junkStored : StoredSwap :=
  { quoteResponse := junkQR, status := SwapStatus.REFUNDED, createdAt := 0,
    updatedAt := 0 }

def demoOut : QuoteResponse × SimState :=
  match requestQuote demoCfg "q1" 0 demoReq initState with
  | Except.ok out => out
  | Except.error _ => (junkQR, initState)

/-! ## Claim C9 — status query for an unknown id -/

/-- Claim C9: for a `quoteId` for which no quote was ever issued,
`getSwapStatus` fails with the not-found error and leaves the swap registry
unchanged. -/
theorem c9_unknown_id_not_found (s : SimState) (quoteId : String)
    (h : lookupSwap quoteId s.swaps = none) :
    getSwapStatus s quoteId =
      (Except.error ("Quote not found: " ++ quoteId), s) := by
  unfold getSwapStatus
  rw [h]

theorem c9_unknown_id_not_found_witness :
    getSwapStatus initState "never-issued" =
      (Except.error ("Quote not found: " ++ "never-issued"), initState) :=
  c9_unknown_id_not_found initState "never-issued" rfl

/-! ## Claim C2 — validation of the amount field

`"0"`, `"-5"` and `""` are rejected as the spec claims, but `"abc"` is NOT:
`parseFloat("abc")` is `NaN` and `NaN <= 0` is `false`, so the check
`!request.amount || parseFloat(request.amount) <= 0` passes and a
`PENDING_DEPOSIT` record with `NaN` amounts is stored. -/

def c2Req (amount : String) : QuoteRequest := { demoReq with amount := amount }

def c2AbcState : SimState :=
  match requestQuote demoCfg "q2" 0 (c2Req "abc") initState with
  | Except.ok out => out.2
  | Except.error _ => initState

/-- Claim C2 (code bug evaluation): amounts `"0"`, `"-5"`, `""` are rejected
synchronously, but the non-numeric amount `"abc"` passes validation, and a
swap record in `PENDING_DEPOSIT` (whose quote has `NaN` fee and amount out)
is stored — contradicting the claimed rejection of non-numeric amounts. -/
theorem c2_nan_amount_accepted :
    validateQuoteRequest (c2Req "0") = Except.error "Valid amount required" ∧
    validateQuoteRequest (c2Req "-5") = Except.error "Valid amount required" ∧
    validateQuoteRequest (c2Req "") = Except.error "Valid amount required" ∧
    validateQuoteRequest (c2Req "abc") = Except.ok () ∧
    ((lookupSwap "q2" c2AbcState.swaps).map
      (fun sw => sw.status)) = some SwapStatus.PENDING_DEPOSIT ∧
    ((lookupSwap "q2" c2AbcState.swaps).map
      (fun sw => sw.quoteResponse.quote.fee)) = some none ∧
    ((lookupSwap "q2" c2AbcState.swaps).map
      (fun sw => sw.quoteResponse.quote.amountOut)) = some none := by
  refine ⟨?_, ?_, ?_, ?_, ?_, ?_, ?_⟩ <;> with_unfolding_all rfl

/-! ## Claim C3 — malformed (but non-empty) asset strings are not rejected -/

def c3Req : QuoteRequest := { demoReq with originAsset := "near" }

def c3State : SimState :=
  match requestQuote demoCfg "q3" 0 c3Req initState with
  | Except.ok out => out.2
  | Except.error _ => initState

/-- Claim C3 counterexample: the request whose `originAsset` is `"near"`
(one colon-separated part, not two) passes validation, `requestQuote`
succeeds, and a `PENDING_DEPOSIT` record is stored — refuting the claim that
such a request fails with a validation error. -/
theorem c3_counterexample_no_colon_accepted :
    validateQuoteRequest c3Req = Except.ok () ∧
    (c3Req.originAsset.splitOn ":").length = 1 ∧
    ((lookupSwap "q3" c3State.swaps).map
      (fun sw => sw.status)) = some SwapStatus.PENDING_DEPOSIT := by
  refine ⟨?_, ?_, ?_⟩ <;> with_unfolding_all rfl

/-- Claim C3 (amended): validation checks the asset strings only for
presence — a request with an EMPTY `originAsset` or `destinationAsset` fails
with the validation error, while a non-empty asset string that does not split
into two non-empty colon-separated parts is not rejected (see the
counterexample). -/
theorem c3_amended_empty_asset_rejected (cfg : OneClickConfig)
    (uuid : String) (now : ℕ) (request : QuoteRequest) (s : SimState)
    (h : request.originAsset = "" ∨ request.destinationAsset = "") :
    requestQuote cfg uuid now request s =
      Except.error "Origin and destination assets required" := by
  have hcond :
      (request.originAsset == "" || request.destinationAsset == "") = true := by
    rcases h with h | h <;> simp [h]
  unfold requestQuote validateQuoteRequest
  rw [if_pos hcond]

theorem c3_amended_empty_asset_rejected_witness :
    requestQuote demoCfg "qx" 0 { demoReq with originAsset := "" } initState =
      Except.error "Origin and destination assets required" :=
  c3_amended_empty_asset_rejected demoCfg "qx" 0
    { demoReq with originAsset := "" } initState (Or.inl rfl)

/-! ## Claim C1 — fee model and slippage haircut -/

/-- Claim C1: for every request accepted by `requestQuote` (with a parseable
amount `a` and, per the declared field domain, a non-negative
`slippageTolerance`), the quote's fee is `a * 0.003` formatted at the origin
asset's decimal precision, the computed amount out is
`a * (1 - 0.003) * (1 - slippage)` (with the caller-supplied slippage
defaulting to 0.01), and hence the amount out is at most `a * 0.997`. -/
theorem c1_fee_and_slippage_bound (cfg : OneClickConfig) (uuid : String)
    (now : ℕ) (request : QuoteRequest) (s : SimState)
    (out : QuoteResponse × SimState) (a : ℚ)
    (hr : requestQuote cfg uuid now request s = Except.ok out)
    (hparse : parseFloat request.amount = some a)
    (hslip : 0 ≤ request.slippageTolerance.getD 0) :
    out.1.quote.fee = some (toFixedQ
      (getDecimals (assetChain request.originAsset)
        (assetToken request.originAsset)) (a * feePercent)) ∧
    amountOutWithSlippage request =
      some (a * (1 - feePercent) * (1 - effectiveSlippage request)) ∧
    out.1.quote.amountOut = some (toFixedQ
      (getDecimals (assetChain request.destinationAsset)
        (assetToken request.destinationAsset))
      (a * (1 - feePercent) * (1 - effectiveSlippage request))) ∧
    a * (1 - feePercent) * (1 - effectiveSlippage request) ≤
      a * (997 / 1000) := by
  obtain ⟨hv, hq, -, -, -, -, -⟩ := requestQuote_ok hr
  obtain ⟨hfee, hout, -, -, -⟩ := calculateQuote_ok hq
  have hpos : 0 < a := amount_pos_of_validate_ok hv hparse
  have hses : 0 ≤ effectiveSlippage request := by
    unfold effectiveSlippage
    cases hs : request.slippageTolerance with
    | none => norm_num
    | some x =>
      rw [hs] at hslip
      simp only [Option.getD_some] at hslip
      show 0 ≤ if x = 0 then (0.01 : ℚ) else x
      split_ifs with hx
      · norm_num
      · exact hslip
  have hfp : (1 - feePercent : ℚ) = 997 / 1000 := by norm_num [feePercent]
  refine ⟨?_, ?_, ?_, ?_⟩
  · rw [hfee, hparse]
    rfl
  · unfold amountOutWithSlippage
    rw [hparse]
    rfl
  · rw [hout]
    unfold amountOutWithSlippage
    rw [hparse]
    rfl
  · rw [hfp]
    calc a * (997 / 1000) * (1 - effectiveSlippage request)
        ≤ a * (997 / 1000) * 1 := by
          apply mul_le_mul_of_nonneg_left (by linarith)
          apply mul_nonneg (le_of_lt hpos)
          norm_num
      _ = a * (997 / 1000) := by ring

theorem c1_fee_and_slippage_bound_witness :
    demoOut.1.quote.fee = some (toFixedQ
      (getDecimals (assetChain demoReq.originAsset)
        (assetToken demoReq.originAsset)) (1000000 * feePercent)) ∧
    amountOutWithSlippage demoReq =
      some (1000000 * (1 - feePercent) * (1 - effectiveSlippage demoReq)) ∧
    demoOut.1.quote.amountOut = some (toFixedQ
      (getDecimals (assetChain demoReq.destinationAsset)
        (assetToken demoReq.destinationAsset))
      (1000000 * (1 - feePercent) * (1 - effectiveSlippage demoReq))) ∧
    (1000000 : ℚ) * (1 - feePercent) * (1 - effectiveSlippage demoReq) ≤
      1000000 * (997 / 1000) :=
  c1_fee_and_slippage_bound demoCfg "q1" 0 demoReq initState demoOut 1000000
    (by with_unfolding_all rfl) (by with_unfolding_all rfl) (by norm_num [demoReq])

/-! ## Claim C6 — route synthesis and time estimate -/

/-- Claim C6: a quote accepted by `requestQuote` has, for a same-chain
request, exactly one route step with protocol "ref-finance" and a time
estimate of 7; for a cross-chain request, exactly two steps with protocols
"rainbow-bridge" then "uniswap-v3" and a time estimate of 45. -/
theorem c6_route_synthesis (cfg : OneClickConfig) (uuid : String) (now : ℕ)
    (request : QuoteRequest) (s : SimState) (out : QuoteResponse × SimState)
    (hr : requestQuote cfg uuid now request s = Except.ok out) :
    (assetChain request.originAsset = assetChain request.destinationAsset →
      out.1.quote.route.map RouteStep.protocol = ["ref-finance"] ∧
      out.1.quote.timeEstimate = 7) ∧
    (assetChain request.originAsset ≠ assetChain request.destinationAsset →
      out.1.quote.route.map RouteStep.protocol =
        ["rainbow-bridge", "uniswap-v3"] ∧
      out.1.quote.timeEstimate = 45) := by
  obtain ⟨-, hq, -, -, -, -, -⟩ := requestQuote_ok hr
  obtain ⟨-, -, htime, hroute, -⟩ := calculateQuote_ok hq
  constructor
  · intro hc
    exact ⟨by rw [hroute, if_pos hc], by rw [htime, if_pos hc]⟩
  · intro hc
    exact ⟨by rw [hroute, if_neg hc], by rw [htime, if_neg hc]⟩

def demoXReq : QuoteRequest :=
  { demoReq with destinationAsset := "ethereum:usdc.eth" }

def demoXOut : QuoteResponse × SimState :=
  match requestQuote demoCfg "q6" 0 demoXReq initState with
  | Except.ok out => out
  | Except.error _ => (junkQR, initState)

theorem c6_route_synthesis_witness :
    (assetChain demoXReq.originAsset = assetChain demoXReq.destinationAsset →
      demoXOut.1.quote.route.map RouteStep.protocol = ["ref-finance"] ∧
      demoXOut.1.quote.timeEstimate = 7) ∧
    (assetChain demoXReq.originAsset ≠ assetChain demoXReq.destinationAsset →
      demoXOut.1.quote.route.map RouteStep.protocol =
        ["rainbow-bridge", "uniswap-v3"] ∧
      demoXOut.1.quote.timeEstimate = 45) :=
  c6_route_synthesis demoCfg "q6" 0 demoXReq initState demoXOut
    (by with_unfolding_all rfl)

/-! ## Claim C10 — an explicit slippage tolerance of 0 is replaced by the
default (JS `||` treats 0 as falsy) -/

/-- Claim C10: a request that explicitly supplies `slippageTolerance = 0`
receives the default slippage 0.01, so its amount out equals
`a * (1 - 0.003) * (1 - 0.01)` — identical to the quote computed for the
same request with `slippageTolerance` omitted. -/
theorem c10_zero_slippage_defaults (cfg cfg' : OneClickConfig)
    (uuid uuid' : String) (now now' : ℕ) (request : QuoteRequest)
    (s t : SimState) (out out' : QuoteResponse × SimState) (a : ℚ)
    (hzero : request.slippageTolerance = some 0)
    (hr : requestQuote cfg uuid now request s = Except.ok out)
    (hr' : requestQuote cfg' uuid' now'
      { request with slippageTolerance := none } t = Except.ok out')
    (hparse : parseFloat request.amount = some a) :
    out.1.quote.amountOut = some (toFixedQ
      (getDecimals (assetChain request.destinationAsset)
        (assetToken request.destinationAsset))
      (a * (1 - feePercent) * (1 - (1 / 100 : ℚ)))) ∧
    out.1.quote.amountOut = out'.1.quote.amountOut := by
  obtain ⟨-, hq, -, -, -, -, -⟩ := requestQuote_ok hr
  obtain ⟨-, hq', -, -, -, -, -⟩ := requestQuote_ok hr'
  obtain ⟨-, hout, -, -, -⟩ := calculateQuote_ok hq
  obtain ⟨-, hout', -, -, -⟩ := calculateQuote_ok hq'
  have hes : effectiveSlippage request = 1 / 100 := by
    simp only [effectiveSlippage, hzero, if_pos]
    norm_num
  have hes' :
      effectiveSlippage { request with slippageTolerance := none } =
        1 / 100 := by
    simp only [effectiveSlippage]
    norm_num
  constructor
  · rw [hout]
    simp [amountOutWithSlippage, hparse, hes]
  · rw [hout, hout']
    simp [amountOutWithSlippage, hparse, hes, hes']

def c10Req : QuoteRequest := { demoReq with slippageTolerance := some 0 }

def c10Out : QuoteResponse × SimState :=
  match requestQuote demoCfg "qa" 0 c10Req initState with
  | Except.ok out => out
  | Except.error _ => (junkQR, initState)

def c10OutNone : QuoteResponse × SimState :=
  match requestQuote demoCfg "qb" 0
      { c10Req with slippageTolerance := none } initState with
  | Except.ok out => out
  | Except.error _ => (junkQR, initState)

theorem c10_zero_slippage_defaults_witness :
    c10Out.1.quote.amountOut = some (toFixedQ
      (getDecimals (assetChain c10Req.destinationAsset)
        (assetToken c10Req.destinationAsset))
      (1000000 * (1 - feePercent) * (1 - (1 / 100 : ℚ)))) ∧
    c10Out.1.quote.amountOut = c10OutNone.1.quote.amountOut :=
  c10_zero_slippage_defaults demoCfg demoCfg "qa" "qb" 0 0 c10Req initState
    initState c10Out c10OutNone 1000000 rfl
    (by with_unfolding_all rfl) (by with_unfolding_all rfl)
    (by with_unfolding_all rfl)

/-! ## Claim C4 — a rejected transfer-executor call is caught and the swap
still succeeds with a mock origin transaction reference -/

/-- Claim C4: for a stored swap whose destination is on the local chain
(`destinationAsset` starts with "near:" — hence its chain component is
"near"), with a configured transfer-executor adapter whose
`sendNearTransfer` call rejects, completing the orchestration still sets
status `SUCCESS` and records the mock origin transaction reference: the
adapter failure is caught and does not abort the swap. -/
theorem c4_transfer_failure_caught (cfg : OneClickConfig) (id : String)
    (now : ℕ) (randHex : String) (s : SimState) (swap : StoredSwap)
    (ne : NearExecutionAdapter) (e : String)
    (h1 : lookupSwap id s.swaps = some swap)
    (hnear : swap.quoteResponse.quoteRequest.destinationAsset.startsWith
      "near:" = true)
    (hchain : assetChain swap.quoteResponse.quoteRequest.destinationAsset =
      "near")
    (hrecip : swap.quoteResponse.quoteRequest.recipient ≠ "")
    (hcfg : cfg.nearExec = some ne)
    (hfail : ne.sendNearTransfer swap.quoteResponse.quoteRequest.refundTo ""
      swap.quoteResponse.quoteRequest.recipient
      ((parseFloat swap.quoteResponse.quote.amountIn).map
        (fun x => x / 10 ^ 24)) = Except.error e) :
    ((lookupSwap id (finishExecution cfg id now randHex s).swaps).map
      StoredSwap.status) = some SwapStatus.SUCCESS ∧
    (((lookupSwap id (finishExecution cfg id now randHex s).swaps).bind
      StoredSwap.swapDetails).map SwapDetails.nearTxHashes) =
      some [generateMockTxHash randHex "NEAR"] := by
  have hntx : nearTxHashOf cfg swap randHex =
      generateMockTxHash randHex "NEAR" := by
    simp only [nearTxHashOf, recipientAccountOf, hcfg, hnear, if_true,
      if_pos, hfail]
    rw [if_neg hrecip]
  have houtcome : finishOutcome cfg swap now randHex =
      successUpdate swap now (generateMockTxHash randHex "NEAR") none := by
    simp only [finishOutcome, hntx, hchain, if_pos]
  have hlook2 : lookupSwap id (finishExecution cfg id now randHex s).swaps =
      some (finishOutcome cfg swap now randHex) := by
    simp only [finishExecution, h1]
    rw [lookupSwap_setSwap_self, h1]
    rfl
  rw [hlook2, houtcome]
  exact ⟨rfl, rfl⟩

def failingNearExec : NearExecutionAdapter :=
  { sendNearTransfer := fun _ _ _ _ => Except.error "transfer failed" }

def c4Cfg : OneClickConfig :=
  { crossChain := demoCrossChain, nearExec := some failingNearExec }

def c4Stored : StoredSwap :=
  { quoteResponse := demoOut.1, status := SwapStatus.PROCESSING,
    createdAt := 0, updatedAt := 5 }

def c4State : SimState :=
  { swaps := [("q4", c4Stored)], scheduled := [], running := ["q4"] }

theorem c4_transfer_failure_caught_witness :
    ((lookupSwap "q4" (finishExecution c4Cfg "q4" 9 "deadbeef" c4State).swaps).map
      StoredSwap.status) = some SwapStatus.SUCCESS ∧
    (((lookupSwap "q4" (finishExecution c4Cfg "q4" 9 "deadbeef" c4State).swaps).bind
      StoredSwap.swapDetails).map SwapDetails.nearTxHashes) =
      some [generateMockTxHash "deadbeef" "NEAR"] :=
  c4_transfer_failure_caught c4Cfg "q4" 9 "deadbeef" c4State c4Stored
    failingNearExec "transfer failed"
    (by with_unfolding_all rfl) (by with_unfolding_all rfl)
    (by with_unfolding_all rfl) (by with_unfolding_all decide)
    (by with_unfolding_all rfl) (by with_unfolding_all rfl)

/-! ## Claim C5 — a rejected destination-chain simulation is not caught:
the swap fails with the error recorded and no swapDetails -/

/-- Claim C5: for a stored swap (with no swapDetails yet) whose destination
chain is not "near", if the facilitator's `simulateDestinationTx` rejects,
completing the orchestration sets status `FAILED`, records the error
message, and leaves `swapDetails` unset. -/
theorem c5_destination_failure_fails_swap (cfg : OneClickConfig)
    (id : String) (now : ℕ) (randHex : String) (s : SimState)
    (swap : StoredSwap) (msg : String)
    (h1 : lookupSwap id s.swaps = some swap)
    (hchain : assetChain swap.quoteResponse.quoteRequest.destinationAsset ≠
      "near")
    (hdet : swap.swapDetails = none)
    (hcc : ∀ chain tx, cfg.crossChain.simulateDestinationTx chain tx =
      Except.error msg) :
    ((lookupSwap id (finishExecution cfg id now randHex s).swaps).map
      StoredSwap.status) = some SwapStatus.FAILED ∧
    ((lookupSwap id (finishExecution cfg id now randHex s).swaps).bind
      StoredSwap.error) = some msg ∧
    ((lookupSwap id (finishExecution cfg id now randHex s).swaps).bind
      StoredSwap.swapDetails) = none := by
  have houtcome : finishOutcome cfg swap now randHex =
      { swap with
          status := SwapStatus.FAILED
          updatedAt := now
          error := some msg } := by
    simp only [finishOutcome, hcc]
    rw [if_neg hchain]
  have hlook2 : lookupSwap id (finishExecution cfg id now randHex s).swaps =
      some (finishOutcome cfg swap now randHex) := by
    simp only [finishExecution, h1]
    rw [lookupSwap_setSwap_self, h1]
    rfl
  rw [hlook2, houtcome]
  refine ⟨rfl, rfl, ?_⟩
  simpa using hdet

def failingCrossChain : CrossChainAdapter :=
  { deriveAddress := fun _ _ =>
      Except.ok { address := "0xderived", publicKey := "pk" }
    simulateDestinationTx := fun _ _ =>
      Except.error "destination simulation failed" }

def c5Cfg : OneClickConfig :=
  { crossChain := failingCrossChain, nearExec := none }

def c5Req : QuoteRequest :=
  { demoReq with destinationAsset := "ethereum:usdc.eth" }

def c5QR : QuoteResponse :=
  { quoteId := "q5", timestamp := 0, quoteRequest := c5Req,
    quote := junkQuote }

def c5Stored : StoredSwap :=
  { quoteResponse := c5QR, status := SwapStatus.PROCESSING, createdAt := 0,
    updatedAt := 5 }

def c5State : SimState :=
  { swaps := [("q5", c5Stored)], scheduled := [], running := ["q5"] }

theorem c5_destination_failure_fails_swap_witness :
    ((lookupSwap "q5" (finishExecution c5Cfg "q5" 9 "feedface" c5State).swaps).map
      StoredSwap.status) = some SwapStatus.FAILED ∧
    ((lookupSwap "q5" (finishExecution c5Cfg "q5" 9 "feedface" c5State).swaps).bind
      StoredSwap.error) = some "destination simulation failed" ∧
    ((lookupSwap "q5" (finishExecution c5Cfg "q5" 9 "feedface" c5State).swaps).bind
      StoredSwap.swapDetails) = none :=
  c5_destination_failure_fails_swap c5Cfg "q5" 9 "feedface" c5State c5Stored
    "destination simulation failed"
    (by with_unfolding_all rfl) (by with_unfolding_all decide) rfl
    (fun _ _ => rfl)

/-! ## Claim C7 — a dry request never leaves PENDING_DEPOSIT -/

/-- Claim C7: in every reachable state of a simulator instance, a stored
record whose request was marked `dry` still has status `PENDING_DEPOSIT`,
and no orchestration task (neither queued nor started) exists for its id. -/
theorem c7_dry_never_scheduled (cfg : OneClickConfig) (s : SimState)
    (id : String) (sw : StoredSwap)
    (hreach : Reachable cfg s)
    (h : lookupSwap id s.swaps = some sw)
    (hdry : sw.quoteResponse.quoteRequest.dry = true) :
    sw.status = SwapStatus.PENDING_DEPOSIT ∧
    id ∉ s.scheduled ∧ id ∉ s.running :=
  (reachable_inv hreach).dryFrozen id sw h hdry

def demoDryReq : QuoteRequest := { demoReq with dry := true }

def demoDryOut : QuoteResponse × SimState :=
  match requestQuote demoCfg "qd" 0 demoDryReq initState with
  | Except.ok out => out
  | Except.error _ => (junkQR, initState)

def demoDryStored : StoredSwap :=
  (lookupSwap "qd" demoDryOut.2.swaps).getD junkStored

theorem c7_dry_never_scheduled_witness :
    demoDryStored.status = SwapStatus.PENDING_DEPOSIT ∧
    "qd" ∉ demoDryOut.2.scheduled ∧ "qd" ∉ demoDryOut.2.running :=
  c7_dry_never_scheduled demoCfg demoDryOut.2 "qd" demoDryStored
    (Relation.ReflTransGen.single
      (Step.quote initState "qd" 0 demoDryReq demoDryOut rfl
        (by with_unfolding_all rfl)))
    (by with_unfolding_all rfl) (by with_unfolding_all rfl)

/-! ## Claim C8 — the status machine -/

/-- Claim C8: every status stored in a reachable state is one of
`PENDING_DEPOSIT`, `PROCESSING`, `SUCCESS`, `FAILED` (never
`INCOMPLETE_DEPOSIT` or `REFUNDED`), and across any step of the system a
record's status either stays put or moves along
`PENDING_DEPOSIT → PROCESSING → SUCCESS | FAILED`. -/
theorem c8_status_machine (cfg : OneClickConfig) (s s' : SimState)
    (id : String) (r r' : StoredSwap)
    (hreach : Reachable cfg s) (hstep : Step cfg s s')
    (h1 : lookupSwap id s.swaps = some r)
    (h2 : lookupSwap id s'.swaps = some r') :
    StatusOk r.status ∧ StatusOk r'.status ∧
    (r.status = r'.status ∨
      (r.status = SwapStatus.PENDING_DEPOSIT ∧
        r'.status = SwapStatus.PROCESSING) ∨
      (r.status = SwapStatus.PROCESSING ∧
        (r'.status = SwapStatus.SUCCESS ∨
          r'.status = SwapStatus.FAILED))) := by
  have hInv := reachable_inv hreach
  have hInv' := inv_step hInv hstep
  exact ⟨hInv.statusOk id r h1, hInv'.statusOk id r' h2,
    step_status_change hInv hstep h1 h2⟩

def demoS1 : SimState := demoOut.2

def demoS2 : SimState := startExecution "q1" 5 demoS1

def demoStored1 : StoredSwap := (lookupSwap "q1" demoS1.swaps).getD junkStored

def demoStored2 : StoredSwap := (lookupSwap "q1" demoS2.swaps).getD junkStored

theorem c8_status_machine_witness :
    StatusOk demoStored1.status ∧ StatusOk demoStored2.status ∧
    (demoStored1.status = demoStored2.status ∨
      (demoStored1.status = SwapStatus.PENDING_DEPOSIT ∧
        demoStored2.status = SwapStatus.PROCESSING) ∨
      (demoStored1.status = SwapStatus.PROCESSING ∧
        (demoStored2.status = SwapStatus.SUCCESS ∨
          demoStored2.status = SwapStatus.FAILED))) :=
  c8_status_machine demoCfg demoS1 demoS2 "q1" demoStored1 demoStored2
    (Relation.ReflTransGen.single
      (Step.quote initState "q1" 0 demoReq demoOut rfl
        (by with_unfolding_all rfl)))
    (Step.start demoS1 "q1" 5 (by
      rw [show demoS1.scheduled = ["q1"] from by with_unfolding_all rfl]
      exact List.mem_singleton.mpr rfl))
    (by with_unfolding_all rfl) (by with_unfolding_all rfl)

end NearIntents
